import Mathlib

set_option maxRecDepth 10000

/-!
Verification development for the retrieval-augmented chat pipeline of
`backend/app.py` (voice_character_chat).

The Python module is shallowly embedded:

* strings are Lean `String`s (Python `str` slicing is by characters, matching
  `String.data : List Char`);
* embedding vectors are `List ℚ` (the concrete float values never matter for
  the ranking and invariant properties; only an ordered field is needed);
* the external collaborators (the sentence-transformers encoder, sklearn's
  `cosine_similarity`, spaCy character detection and the Gemini generation
  endpoint) are parameters of the operations, exactly as the spec treats them
  (external services consumed through a narrow interface);
* a fallible external call is an `Option`/`Except` value; a Python exception
  escaping a route is an `Except.error`;
* the module-level globals `BOOK_TEXT`, `BOOK_CHUNKS`, `BOOK_EMBEDDINGS`,
  `CHAT_HISTORY` form the `SessionState` record, and each route is a function
  from the pre-state to a result together with the post-state;
* the number of calls made to the embedder and to the generative service is
  returned alongside each chat result, mirroring the call-count assertions of
  spec section 8.
-/

/-- Embedding vectors: fixed-dimension sequences of numbers (`app.py` line 79,
`emb.tolist()`). -/
abbrev Vec := List ℚ

/-- One history turn: `{"user": ..., "ai": ...}` (`app.py` line 215). -/
structure Turn where
  user : String
  ai : String
deriving DecidableEq, Repr

/-- The module-level globals of `app.py` lines 41-44.  `CHAT_HISTORY` is the
Python dict, modelled as an association list (the detected character names are
distinct keys). -/
structure SessionState where
  BOOK_TEXT : String
  BOOK_CHUNKS : List String
  BOOK_EMBEDDINGS : List Vec
  CHAT_HISTORY : List (String × List Turn)
deriving DecidableEq, Repr

/-- `UploadResponse` of `app.py` lines 47-50. -/
structure UploadResponse where
  text_preview : String
  total_chars : Nat
  characters : List String
deriving DecidableEq, Repr

/-- Python exceptions that can escape the embedded operations. -/
inductive PyErr where
  | keyError (k : String)
  | indexError
  | embedError
deriving DecidableEq, Repr

/-- Result of a chat request: the reply, the post-state, and how many calls
were made to the embedder resp. the generative service while serving it. -/
structure ChatOutcome where
  reply : String
  state : SessionState
  embedCalls : Nat
  genCalls : Nat
deriving DecidableEq, Repr

/-- Boolean substring test: Python `pat in hay`. -/
def strContains (hay pat : String) : Bool :=
  (List.range (hay.data.length + 1)).any
    (fun i => ((hay.data.drop i).take pat.data.length) == pat.data)

/-- Boolean test that `hay` starts with `pat`. -/
def strStarts (hay pat : String) : Bool :=
  hay.data.take pat.data.length == pat.data

/-- Boolean test that `hay` ends with `pat`. -/
def strEnds (hay pat : String) : Bool :=
  hay.data.drop (hay.data.length - pat.data.length) == pat.data

/-- `split_into_chunks` recursion, with fuel: one chunk `text[:size]` is
produced per step and the rest of the text is processed recursively.  Fuel
`text.length` is enough whenever `size > 0`, since each step consumes at
least one character. -/
def splitGo (size : Nat) : Nat → List Char → List (List Char)
  | 0, _ => []
  | fuel + 1, t => if t = [] then [] else t.take size :: splitGo size fuel (t.drop size)

/-- `app.py` lines 73-74:
`[text[i:i+size] for i in range(0, len(text), size)]`, i.e. consecutive
non-overlapping windows of `size` characters, the last one possibly shorter.
(`size = 0` makes Python raise `ValueError` in `range`; the program only ever
calls this with the default `size = 2000`, and all properties below assume
`0 < size`.) -/
def split_into_chunks (text : List Char) (size : Nat) : List (List Char) :=
  splitGo size text.length text

/-- `split_into_chunks` on a `String`, producing `String` chunks (used by the
upload route). -/
def splitIntoChunksStr (text : String) (size : Nat) : List String :=
  (split_into_chunks text.data size).map String.mk

/-- `BOOK_EMBEDDINGS = [embed_text(chunk) for chunk in BOOK_CHUNKS]`
(`app.py` line 140): left-to-right, stopping at the first failing embedder
call (a raised exception aborts the comprehension before the assignment). -/
def embedAll (embedder : String → Option Vec) : List String → Option (List Vec)
  | [] => some []
  | c :: rest =>
    match embedder c with
    | none => none
    | some v =>
      match embedAll embedder rest with
      | none => none
      | some vs => some (v :: vs)

/-- Python `CHAT_HISTORY.get(c, [])`: defaulting lookup, never an error. -/
def dictGetD : List (String × List Turn) → String → List Turn
  | [], _ => []
  | (k, v) :: rest, c => if k = c then v else dictGetD rest c

/-- Python `CHAT_HISTORY[c].append(t)` (`app.py` line 215): append to the
entry of key `c`, or raise `KeyError` (`none`) when the key is absent. -/
def dictAppend : List (String × List Turn) → String → Turn → Option (List (String × List Turn))
  | [], _, _ => none
  | (k, v) :: rest, c, t =>
    if k = c then some ((k, v ++ [t]) :: rest)
    else (dictAppend rest c t).map (fun r => (k, v) :: r)

/-- The last five turns, Python `log[-5:]` (`app.py` line 171). -/
def recentTurns (log : List Turn) : List Turn :=
  log.drop (log.length - 5)

/-- One history line: `f"User: {m['user']}\n{chat.character}: {m['ai']}"`
(`app.py` line 170). -/
def renderTurn (character : String) (m : Turn) : String :=
  "User: " ++ m.user ++ "\n" ++ character ++ ": " ++ m.ai

/-- The history block of the prompt (`app.py` lines 169-172):
`"\n".join(rendered last-5 turns)`. -/
def historyStr (character : String) (log : List Turn) : String :=
  String.intercalate "\n" ((recentTurns log).map (renderTurn character))

/-- The ASCII single-quote, double-quote and backslash characters (written
via their code points to keep source quoting unambiguous). -/
def squoteC : Char := Char.ofNat 39

/-- The ASCII double-quote character. -/
def dquoteC : Char := Char.ofNat 34

/-- The ASCII backslash character. -/
def backslashC : Char := Char.ofNat 92

/-- CPython quote selection for `repr` of a string: single quotes, unless the
string contains a single quote and no double quote, in which case double
quotes are used. -/
def pyQuote (s : List Char) : Char :=
  if squoteC ∈ s ∧ ¬ dquoteC ∈ s then dquoteC else squoteC

/-- CPython escaping of one character inside a `repr` literal with quote
character `q`: backslash and the quote character are backslash-escaped, and
newline, carriage return and tab become `\n`, `\r`, `\t`.  (Other
non-printable characters, which CPython would render as `\x`/`\u` escapes,
are left verbatim here; the prompt-assembly theorem therefore restricts its
chunks to printable-ASCII-and-whitespace text via `pyPlain`.) -/
def pyEscape (q c : Char) : List Char :=
  if c = backslashC then [backslashC, backslashC]
  else if c = q then [backslashC, q]
  else if c = Char.ofNat 10 then [backslashC, Char.ofNat 110]
  else if c = Char.ofNat 13 then [backslashC, Char.ofNat 114]
  else if c = Char.ofNat 9 then [backslashC, Char.ofNat 116]
  else [c]

/-- Python `repr` of a string: the chosen quote character around the escaped
character sequence. -/
def pyStrRepr (s : String) : String :=
  String.mk ([pyQuote s.data]
    ++ (s.data.map (pyEscape (pyQuote s.data))).flatten ++ [pyQuote s.data])

/-- Characters on which `pyEscape` agrees exactly with CPython `repr`:
printable ASCII, newline, carriage return and tab. -/
def pyPlain (c : Char) : Bool :=
  (32 ≤ c.toNat && c.toNat ≤ 126) || c.toNat = 10 || c.toNat = 13 || c.toNat = 9

/-- Python `str` of a list of strings, as interpolated by the f-string
`{relevant_context}` (`app.py` line 184): each element rendered by `repr`
(quote choice and escaping as in CPython), separated by `", "`, in square
brackets. -/
def pyListRepr (l : List String) : String :=
  "[" ++ String.intercalate ", " (l.map pyStrRepr) ++ "]"

/-- The prompt f-string of `app.py` lines 174-189, with its literal text split
at the boundaries of the interpolated values. -/
def buildPrompt (character history : String) (relevant_context : List String)
    (message : String) : String :=
  "\n" ++ "You are roleplaying as **" ++ character ++ "** from the uploaded book." ++
  "\n\nStay in character. Speak in a natural conversational style.\nIf the book does not provide enough info, politely say so.\n\nConversation history:\n" ++
  history ++
  "\n\nRelevant book context:\n" ++
  pyListRepr relevant_context ++
  "\n\n---\n" ++ "User: \"" ++ message ++ "\"" ++ "\n" ++ character ++ ":" ++ "\n"

/-- Python `str.strip()` (`app.py` line 198): remove leading and trailing
whitespace.  (Implemented on the character list so that it computes by
kernel reduction.) -/
def pyStrip (s : String) : String :=
  String.mk (((s.data.dropWhile Char.isWhitespace).reverse.dropWhile Char.isWhitespace).reverse)

/-- The rate-limit classification of `app.py` line 202: `"429" in str(e)`. -/
def isRateLimitMsg (e : String) : Bool := strContains e "429"

/-- Whether a generation attempt outcome is a rate-limit failure. -/
def isRateLimitRes : Except String String → Bool
  | Except.ok _ => false
  | Except.error e => isRateLimitMsg e

/-- The warning-glyph marker both error replies start with. -/
def warnMark : String := "(⚠️"

/-- `app.py` line 211: the fixed reply after exhausting all retries. -/
def unavailableReply : String :=
  warnMark ++ " Error: The model is currently unavailable after multiple retries.)"

/-- `app.py` line 208: the reply for a non-rate-limit generation error. -/
def modelErrorReply (e : String) : String :=
  warnMark ++ " Error talking to model: " ++ e ++ ")"

/-- The retry loop of `app.py` lines 191-211.  `g n` is the outcome of the
`n`-th generation attempt (0-based); `jitter n` is the value drawn by
`random.uniform(0, 1)` after the `n`-th failed attempt.  Returns the reply,
the number of attempts actually made, and the list of `time.sleep` durations
in order.  `fuel` is the remaining loop iterations (`retries = 3`), `delay`
the current backoff delay (initially 1 second). -/
def retryLoop (g : Nat → Except String String) (jitter : Nat → ℚ) :
    Nat → Nat → ℚ → List ℚ → String × Nat × List ℚ
  | 0, attempts, _, sleeps => (unavailableReply, attempts, sleeps)
  | fuel + 1, attempts, delay, sleeps =>
    match g attempts with
    | Except.ok t => (pyStrip t, attempts + 1, sleeps)
    | Except.error e =>
      if isRateLimitMsg e then
        retryLoop g jitter fuel (attempts + 1) (2 * delay + jitter attempts) (sleeps ++ [delay])
      else (modelErrorReply e, attempts + 1, sleeps)

/-- The generation call with retry/backoff (`app.py` lines 191-211):
3 total attempts, initial delay 1, `delay = delay * 2 + jitter` after each
rate-limited failure.  `gen prompt n` models
`genai.GenerativeModel(...).generate_content(prompt)` on attempt `n`
(already `.text`, to which the code applies `.strip()`). -/
def generate_with_retry (gen : String → Nat → Except String String) (prompt : String)
    (jitter : Nat → ℚ) : String × Nat × List ℚ :=
  retryLoop (gen prompt) jitter 3 0 1 []

/-- The closed form of the backoff delays: `delay` starts at 1 and each failed
attempt doubles it and adds the drawn jitter. -/
def delaySeq (jitter : Nat → ℚ) : Nat → ℚ
  | 0 => 1
  | n + 1 => 2 * delaySeq jitter n + jitter n

/-- The sort key of index `i`: its similarity score. -/
def simKey (sims : List ℚ) (i : Nat) : ℚ := sims.getD i 0

/-- numpy's documented contract for `sims.argsort()` (`app.py` line 86): the
result is a permutation of the indices `0, ..., len(sims)-1` that sorts the
scores ascending.  The relative order of indices with equal scores is NOT
specified: the default kind is quicksort (introsort), which is not stable
for arrays above its small-sort threshold.  The concrete sort is therefore a
parameter of the search, constrained only by this contract — like the
encoder and `cosine_similarity`, it is a library collaborator. -/
def isArgsortOf (sims : List ℚ) (ids : List Nat) : Prop :=
  ids.Perm (List.range sims.length)
  ∧ List.Pairwise (fun i j => simKey sims i ≤ simKey sims j) ids

/-- A total order on indices: ascending score, ties by ascending original
index.  Sorting by it realises numpy's argsort on arrays below the introsort
small-sort threshold, where numpy falls back to insertion sort and is
therefore stable. -/
def simOrd (sims : List ℚ) (i j : Nat) : Prop :=
  simKey sims i < simKey sims j ∨ (simKey sims i = simKey sims j ∧ i ≤ j)

instance (sims : List ℚ) : DecidableRel (simOrd sims) := fun i j =>
  inferInstanceAs (Decidable (simKey sims i < simKey sims j ∨ (simKey sims i = simKey sims j ∧ i ≤ j)))

/-- One realization of the `isArgsortOf` contract: the stable ascending
insertion sort, which is what numpy's introsort performs on small arrays
(such as the one- and two-element score arrays of the concrete evaluations
below).  For large arrays the program guarantees only `isArgsortOf`. -/
def argsort (sims : List ℚ) : List Nat :=
  List.insertionSort (simOrd sims) (List.range sims.length)

/-- Python tail slice `l[-k:]`.  Note `l[-0:]` is `l[0:]`, the whole list. -/
def pyTail {α : Type} (l : List α) (k : Nat) : List α :=
  if k = 0 then l else l.drop (l.length - k)

/-- `ids[-top_k:][::-1]` applied to the argsort result (`app.py` line 86). -/
def topIds (ids : List Nat) (top_k : Nat) : List Nat :=
  (pyTail ids top_k).reverse

/-- `[BOOK_CHUNKS[i] for i in top_ids]` (`app.py` line 87); an out-of-range
index raises `IndexError` (`none`). -/
def indexList (chunks : List String) : List Nat → Option (List String)
  | [] => some []
  | i :: rest =>
    match chunks.get? i with
    | none => none
    | some c => (indexList chunks rest).map (fun cs => c :: cs)

/-- `semantic_search` (`app.py` lines 81-87).  The query is embedded only when
the index is non-empty; `simFn` is sklearn's `cosine_similarity` applied to
the query vector and one stored vector, and `npArgsort` is numpy's `argsort`
(both external library functions, spec section 1; `npArgsort` is constrained
by `isArgsortOf` where its behavior matters).  Returns the ranked chunks and
the number of embedder calls. -/
def semantic_search (embedder : String → Option Vec) (simFn : Vec → Vec → ℚ)
    (npArgsort : List ℚ → List Nat)
    (st : SessionState) (query : String) (top_k : Nat) : Except PyErr (List String × Nat) :=
  if st.BOOK_EMBEDDINGS = [] then Except.ok ([], 0)
  else
    match embedder query with
    | none => Except.error PyErr.embedError
    | some q_emb =>
      match indexList st.BOOK_CHUNKS
          (topIds (npArgsort (st.BOOK_EMBEDDINGS.map (simFn q_emb))) top_k) with
      | none => Except.error PyErr.indexError
      | some cs => Except.ok (cs, 1)

/-- The upload route, `app.py` lines 136-157, after text extraction (lines
121-134 — the PDF/URL extraction is an external collaborator, spec section 6,
and the no-file-no-url branch returns without touching state).  The global
assignments happen in source order: `BOOK_TEXT` (136), `BOOK_CHUNKS` (137),
then `BOOK_EMBEDDINGS` (140) — so a raised embedding error leaves the first
two already overwritten; `detect` models the spaCy character detection and
`filter_character_list` (lines 143-152), and `CHAT_HISTORY` is rebuilt from
it (line 154). -/
def upload_file (embedder : String → Option Vec) (detect : String → List String)
    (extracted_text : String) (st : SessionState) :
    Except Unit UploadResponse × SessionState :=
  let st1 : SessionState := { st with BOOK_TEXT := extracted_text }
  let chunks := splitIntoChunksStr extracted_text 2000
  let st2 : SessionState := { st1 with BOOK_CHUNKS := chunks }
  match embedAll embedder chunks with
  | none => (Except.error (), st2)
  | some embs =>
    let st3 : SessionState := { st2 with BOOK_EMBEDDINGS := embs }
    let final_characters := detect extracted_text
    let st4 : SessionState := { st3 with CHAT_HISTORY := final_characters.map (fun c => (c, [])) }
    (Except.ok ⟨String.mk (extracted_text.data.take 500), extracted_text.length,
        final_characters⟩, st4)

/-- The fixed guidance reply of `app.py` line 166. -/
def guidanceReply : String := "Please upload a book or website first."

/-- The chat route, `app.py` lines 162-216.  `if not BOOK_TEXT` is string
truthiness, i.e. emptiness.  On a non-empty reply the code appends to
`CHAT_HISTORY[chat.character]` by direct indexing, which raises `KeyError`
when the character is not a key. -/
def chat_with_character (embedder : String → Option Vec) (simFn : Vec → Vec → ℚ)
    (npArgsort : List ℚ → List Nat)
    (gen : String → Nat → Except String String) (jitter : Nat → ℚ)
    (st : SessionState) (character message : String) : Except PyErr ChatOutcome :=
  if st.BOOK_TEXT = "" then Except.ok ⟨guidanceReply, st, 0, 0⟩
  else
    match semantic_search embedder simFn npArgsort st message 3 with
    | Except.error e => Except.error e
    | Except.ok (relevant_context, embedCalls) =>
      let history := historyStr character (dictGetD st.CHAT_HISTORY character)
      let prompt := buildPrompt character history relevant_context message
      let res := generate_with_retry gen prompt jitter
      if res.1 = "" then Except.ok ⟨res.1, st, embedCalls, res.2.1⟩
      else
        match dictAppend st.CHAT_HISTORY character ⟨message, res.1⟩ with
        | none => Except.error (PyErr.keyError character)
        | some h => Except.ok ⟨res.1, { st with CHAT_HISTORY := h }, embedCalls, res.2.1⟩

/-- The globals as first assigned at module load (`app.py` lines 41-44):
no Document Session exists yet. -/
def initState : SessionState := ⟨"", [], [], []⟩

/-! ### Chunker lemmas (C5) -/

theorem splitGo_nil (s fuel : Nat) : splitGo s fuel [] = [] := by
  cases fuel <;> simp [splitGo]

theorem splitGo_join (s : Nat) (hs : 0 < s) :
    ∀ (fuel : Nat) (t : List Char), t.length ≤ fuel → (splitGo s fuel t).flatten = t := by
  intro fuel
  induction fuel with
  | zero =>
    intro t ht
    have h0 : t = [] := List.length_eq_zero.mp (Nat.le_zero.mp ht)
    subst h0; simp [splitGo]
  | succ n ih =>
    intro t ht
    by_cases h : t = []
    · subst h; simp [splitGo]
    · simp only [splitGo, if_neg h, List.flatten]
      rw [ih (t.drop s) (by simp only [List.length_drop]; omega)]
      exact List.take_append_drop s t

theorem splitGo_length (s : Nat) (hs : 0 < s) :
    ∀ (fuel : Nat) (t : List Char), t.length ≤ fuel →
      (splitGo s fuel t).length = (t.length + s - 1) / s := by
  intro fuel
  induction fuel with
  | zero =>
    intro t ht
    have h0 : t = [] := List.length_eq_zero.mp (Nat.le_zero.mp ht)
    subst h0
    simp [splitGo, Nat.div_eq_of_lt (show s - 1 < s by omega)]
  | succ n ih =>
    intro t ht
    by_cases h : t = []
    · subst h; simp [splitGo, Nat.div_eq_of_lt (show s - 1 < s by omega)]
    · simp only [splitGo, if_neg h, List.length_cons]
      rw [ih (t.drop s) (by simp only [List.length_drop]; omega)]
      simp only [List.length_drop]
      have h1 : 1 ≤ t.length := List.length_pos.mpr h
      have hrw : t.length + s - 1 = (t.length - 1) + s := by omega
      rw [hrw, Nat.add_div_right _ hs]
      rcases Nat.le_total s t.length with hc | hc
      · have e1 : t.length - s + s - 1 = t.length - 1 := by omega
        rw [e1]
      · have e1 : t.length - s = 0 := by omega
        have e2 : t.length - s + s - 1 = s - 1 := by omega
        rw [e2, Nat.div_eq_of_lt (by omega), Nat.div_eq_of_lt (by omega)]

theorem splitGo_ne_nil (s : Nat) (hs : 0 < s) :
    ∀ (fuel : Nat) (t c : List Char), c ∈ splitGo s fuel t → c ≠ [] := by
  intro fuel
  induction fuel with
  | zero => intro t c hc; simp [splitGo] at hc
  | succ n ih =>
    intro t c hc
    by_cases h : t = []
    · subst h; simp [splitGo] at hc
    · simp only [splitGo, if_neg h, List.mem_cons] at hc
      rcases hc with rfl | hc
      · intro hx
        rcases List.take_eq_nil_iff.mp hx with h0 | h0
        · omega
        · exact h h0
      · exact ih (t.drop s) c hc

theorem splitGo_dropLast_length (s : Nat) (_hs : 0 < s) :
    ∀ (fuel : Nat) (t c : List Char), c ∈ (splitGo s fuel t).dropLast → c.length = s := by
  intro fuel
  induction fuel with
  | zero => intro t c hc; simp [splitGo] at hc
  | succ n ih =>
    intro t c hc
    by_cases h : t = []
    · subst h; simp [splitGo] at hc
    · simp only [splitGo, if_neg h] at hc
      rcases hrest : splitGo s n (t.drop s) with _ | ⟨r, rs⟩
      · rw [hrest] at hc; simp at hc
      · rw [hrest, List.dropLast_cons₂] at hc
        rcases List.mem_cons.mp hc with rfl | hc2
        · have hd : t.drop s ≠ [] := by
            intro hnil
            rw [hnil, splitGo_nil] at hrest
            exact List.noConfusion hrest
          have hsl : s ≤ t.length := by
            by_contra hlt
            push_neg at hlt
            exact hd (List.drop_eq_nil_of_le (by omega))
          simp only [List.length_take]
          omega
        · exact ih (t.drop s) c (by rw [hrest]; exact hc2)

theorem split_single (t : List Char) (s : Nat) (hne : t ≠ []) (hle : t.length ≤ s) :
    split_into_chunks t s = [t] := by
  unfold split_into_chunks
  rcases hL : t.length with _ | n
  · exact absurd (List.length_eq_zero.mp hL) hne
  · simp only [splitGo, if_neg hne]
    rw [List.drop_eq_nil_of_le hle, splitGo_nil, List.take_of_length_le hle]

/-- C5: for every text `T` and positive chunk size `S`, the chunks of
`split_into_chunks T S` concatenate back to `T`; their number is
`ceil(len(T)/S)` (`(len(T)+S-1)/S` in natural division, which is `0` for
empty `T`); every chunk except possibly the last has length exactly `S`; no
chunk is empty; and a non-empty text shorter than `S` yields exactly the one
chunk `T`. -/
theorem C5_chunker (t : List Char) (s : Nat) (hs : 0 < s) :
    (split_into_chunks t s).flatten = t
    ∧ (split_into_chunks t s).length = (t.length + s - 1) / s
    ∧ (∀ c ∈ (split_into_chunks t s).dropLast, c.length = s)
    ∧ (∀ c ∈ split_into_chunks t s, c ≠ [])
    ∧ (t = [] → split_into_chunks t s = [])
    ∧ (t ≠ [] → t.length < s → split_into_chunks t s = [t]) := by
  refine ⟨splitGo_join s hs t.length t le_rfl,
    splitGo_length s hs t.length t le_rfl,
    fun c hc => splitGo_dropLast_length s hs t.length t c hc,
    fun c hc => splitGo_ne_nil s hs t.length t c hc,
    ?_,
    fun h1 h2 => split_single t s h1 (Nat.le_of_lt h2)⟩
  intro h; subst h; rfl

/-- C5 witness: the theorem evaluated at the concrete text `"abc"` with
chunk size 2. -/
theorem C5_chunker_witness :
    0 < 2
    ∧ ((split_into_chunks ['a', 'b', 'c'] 2).flatten = ['a', 'b', 'c']
      ∧ (split_into_chunks ['a', 'b', 'c'] 2).length = (['a', 'b', 'c'].length + 2 - 1) / 2
      ∧ (∀ c ∈ (split_into_chunks ['a', 'b', 'c'] 2).dropLast, c.length = 2)
      ∧ (∀ c ∈ split_into_chunks ['a', 'b', 'c'] 2, c ≠ [])
      ∧ (['a', 'b', 'c'] = ([] : List Char) → split_into_chunks ['a', 'b', 'c'] 2 = [])
      ∧ (['a', 'b', 'c'] ≠ [] → (['a', 'b', 'c'] : List Char).length < 2 →
          split_into_chunks ['a', 'b', 'c'] 2 = [['a', 'b', 'c']])) :=
  ⟨by decide, C5_chunker ['a', 'b', 'c'] 2 (by decide)⟩

/-! ### No-session guidance (C6, C10) and upload (C9, C1) -/

theorem chat_noSession (embedder : String → Option Vec) (simFn : Vec → Vec → ℚ)
    (npArgsort : List ℚ → List Nat)
    (gen : String → Nat → Except String String) (jitter : Nat → ℚ)
    (st : SessionState) (h : st.BOOK_TEXT = "") (c m : String) :
    chat_with_character embedder simFn npArgsort gen jitter st c m
      = Except.ok ⟨guidanceReply, st, 0, 0⟩ := by
  unfold chat_with_character
  rw [if_pos h]

/-- C6: a chat request arriving before any upload (the module-load state, in
which no Document Session exists) returns the fixed guidance reply, and the
embedder and the generative service are each called zero times. -/
theorem C6_no_session_guidance (embedder : String → Option Vec) (simFn : Vec → Vec → ℚ)
    (npArgsort : List ℚ → List Nat)
    (gen : String → Nat → Except String String) (jitter : Nat → ℚ) (c m : String) :
    chat_with_character embedder simFn npArgsort gen jitter initState c m
      = Except.ok ⟨guidanceReply, initState, 0, 0⟩ :=
  chat_noSession embedder simFn npArgsort gen jitter initState rfl c m

/-- C10: an upload whose extracted text is empty succeeds (returning an empty
preview and zero characters), and every subsequent chat request returns the
no-session guidance reply with zero embedder and zero generation calls and an
unchanged state, because session existence is tested by truthiness of
`BOOK_TEXT`. -/
theorem C10_empty_upload_locks_chat (embedder : String → Option Vec)
    (detect : String → List String) (st : SessionState)
    (embedder2 : String → Option Vec) (simFn : Vec → Vec → ℚ)
    (npArgsort : List ℚ → List Nat)
    (gen : String → Nat → Except String String) (jitter : Nat → ℚ) (c m : String) :
    (upload_file embedder detect "" st).1 = Except.ok ⟨"", 0, detect ""⟩
    ∧ (upload_file embedder detect "" st).2.BOOK_TEXT = ""
    ∧ chat_with_character embedder2 simFn npArgsort gen jitter
          (upload_file embedder detect "" st).2 c m
        = Except.ok ⟨guidanceReply, (upload_file embedder detect "" st).2, 0, 0⟩ := by
  have hup : upload_file embedder detect "" st
      = (Except.ok ⟨"", 0, detect ""⟩,
         ⟨"", [], [], (detect "").map (fun ch => (ch, []))⟩) := rfl
  refine ⟨?_, ?_, ?_⟩
  · rw [hup]
  · rw [hup]
  · rw [hup]
    exact chat_noSession embedder2 simFn npArgsort gen jitter _ rfl c m

theorem embedAll_length (embedder : String → Option Vec) :
    ∀ (l : List String) (v : List Vec), embedAll embedder l = some v → v.length = l.length := by
  intro l
  induction l with
  | nil =>
    intro v hv
    simp only [embedAll, Option.some.injEq] at hv
    subst hv; rfl
  | cons c rest ih =>
    intro v hv
    simp only [embedAll] at hv
    rcases h1 : embedder c with _ | e1 <;> rw [h1] at hv
    · exact Option.noConfusion hv
    · rcases h2 : embedAll embedder rest with _ | vs <;> rw [h2] at hv
      · exact Option.noConfusion hv
      · simp only [Option.some.injEq] at hv
        subst hv
        simp [ih vs h2]

theorem embedAll_getD (embedder : String → Option Vec) :
    ∀ (l : List String) (v : List Vec), embedAll embedder l = some v →
      ∀ i, i < l.length → embedder (l.getD i "") = some (v.getD i []) := by
  intro l
  induction l with
  | nil => intro v hv i hi; simp at hi
  | cons c rest ih =>
    intro v hv i hi
    simp only [embedAll] at hv
    rcases h1 : embedder c with _ | e1 <;> rw [h1] at hv
    · exact Option.noConfusion hv
    · rcases h2 : embedAll embedder rest with _ | vs <;> rw [h2] at hv
      · exact Option.noConfusion hv
      · simp only [Option.some.injEq] at hv
        subst hv
        cases i with
        | zero => simpa using h1
        | succ j =>
          simp only [List.getD_cons_succ]
          exact ih vs h2 j (by simpa using hi)

/-- C9: after every successful upload the stored chunk list and the stored
embedding list have equal length, and the embedding at index `i` is the
embedder applied to the chunk at index `i`. -/
theorem C9_parallel_arrays (embedder : String → Option Vec) (detect : String → List String)
    (text : String) (st : SessionState) (resp : UploadResponse) (st2 : SessionState)
    (h : upload_file embedder detect text st = (Except.ok resp, st2)) :
    st2.BOOK_CHUNKS.length = st2.BOOK_EMBEDDINGS.length
    ∧ ∀ i, i < st2.BOOK_CHUNKS.length →
        embedder (st2.BOOK_CHUNKS.getD i "") = some (st2.BOOK_EMBEDDINGS.getD i []) := by
  simp only [upload_file] at h
  rcases hE : embedAll embedder (splitIntoChunksStr text 2000) with _ | embs <;> rw [hE] at h
  · simp at h
  · rw [Prod.mk.injEq] at h
    rcases h with ⟨_, h2⟩
    subst h2
    refine ⟨(embedAll_length embedder _ embs hE).symm, ?_⟩
    intro i hi
    exact embedAll_getD embedder _ embs hE i hi

/-- C9 witness: a concrete successful upload of the text `"ab"`. -/
theorem C9_parallel_arrays_witness :
    upload_file (fun _ => some [(1 : ℚ)]) (fun _ => []) "ab" initState
        = (Except.ok ⟨"ab", 2, []⟩, (⟨"ab", ["ab"], [[1]], []⟩ : SessionState))
    ∧ ((⟨"ab", ["ab"], [[1]], []⟩ : SessionState).BOOK_CHUNKS.length
          = (⟨"ab", ["ab"], [[1]], []⟩ : SessionState).BOOK_EMBEDDINGS.length
      ∧ ∀ i, i < (⟨"ab", ["ab"], [[1]], []⟩ : SessionState).BOOK_CHUNKS.length →
          (fun _ => some [(1 : ℚ)] : String → Option Vec)
              ((⟨"ab", ["ab"], [[1]], []⟩ : SessionState).BOOK_CHUNKS.getD i "")
            = some ((⟨"ab", ["ab"], [[1]], []⟩ : SessionState).BOOK_EMBEDDINGS.getD i [])) :=
  ⟨rfl, C9_parallel_arrays (fun _ => some [(1 : ℚ)]) (fun _ => []) "ab" initState
      ⟨"ab", 2, []⟩ ⟨"ab", ["ab"], [[1]], []⟩ rfl⟩

/-- C1 (amended): when embedding any chunk fails, the upload fails as a whole
(the exception propagates out of the route) and `BOOK_EMBEDDINGS` and
`CHAT_HISTORY` keep their previous values — but `BOOK_TEXT` and `BOOK_CHUNKS`
have already been overwritten with the new document's text and chunks, so the
previous session is partially overwritten rather than left untouched. -/
theorem C1_failed_embedding_partial_overwrite (embedder : String → Option Vec)
    (detect : String → List String) (text : String) (st : SessionState)
    (h : embedAll embedder (splitIntoChunksStr text 2000) = none) :
    (upload_file embedder detect text st).1 = Except.error ()
    ∧ (upload_file embedder detect text st).2.BOOK_EMBEDDINGS = st.BOOK_EMBEDDINGS
    ∧ (upload_file embedder detect text st).2.CHAT_HISTORY = st.CHAT_HISTORY
    ∧ (upload_file embedder detect text st).2.BOOK_TEXT = text
    ∧ (upload_file embedder detect text st).2.BOOK_CHUNKS = splitIntoChunksStr text 2000 := by
  simp [upload_file, h]

/-- A previous session with a stored document, used to exhibit the partial
overwrite on a failed re-upload. -/
def stC1 : SessionState := ⟨"old", ["old"], [[1]], [("Alice", [])]⟩

/-- C1 counterexample: uploading the text `"new"` with an embedder that
raises makes the upload fail, yet the resulting session differs from the
previous one (`BOOK_TEXT` is already `"new"`), refuting the claim that the
previous session state is exactly what it was before the upload. -/
theorem C1_cex :
    (upload_file (fun _ => none) (fun _ => []) "new" stC1).1 = Except.error ()
    ∧ (upload_file (fun _ => none) (fun _ => []) "new" stC1).2.BOOK_TEXT = "new"
    ∧ stC1.BOOK_TEXT = "old"
    ∧ (upload_file (fun _ => none) (fun _ => []) "new" stC1).2 ≠ stC1 := by
  refine ⟨rfl, rfl, rfl, ?_⟩
  decide

/-- C1 witness: the amended theorem evaluated at the failing upload of
`"new"` over the session `stC1`. -/
theorem C1_failed_embedding_partial_overwrite_witness :
    embedAll (fun _ => none) (splitIntoChunksStr "new" 2000) = none
    ∧ ((upload_file (fun _ => none) (fun _ => []) "new" stC1).1 = Except.error ()
      ∧ (upload_file (fun _ => none) (fun _ => []) "new" stC1).2.BOOK_EMBEDDINGS
          = stC1.BOOK_EMBEDDINGS
      ∧ (upload_file (fun _ => none) (fun _ => []) "new" stC1).2.CHAT_HISTORY
          = stC1.CHAT_HISTORY
      ∧ (upload_file (fun _ => none) (fun _ => []) "new" stC1).2.BOOK_TEXT = "new"
      ∧ (upload_file (fun _ => none) (fun _ => []) "new" stC1).2.BOOK_CHUNKS
          = splitIntoChunksStr "new" 2000) :=
  ⟨rfl, C1_failed_embedding_partial_overwrite (fun _ => none) (fun _ => []) "new" stC1 rfl⟩

/-! ### Chat exception on unknown character (C2) -/

/-- A session as produced by a successful upload in which spaCy detected no
characters: a Document Session exists (`BOOK_TEXT` non-empty) but
`CHAT_HISTORY` has no keys. -/
def stC2 : SessionState := ⟨"x", ["x"], [[1]], []⟩

/-- C2 evaluation at the failing input: with a Document Session present, a
total embedder, and a generation call that succeeds with the non-empty reply
`"hello"`, a chat request for the character `"Alice"` — absent from the
history mapping — raises `KeyError` at `CHAT_HISTORY[chat.character].append`
(`app.py` line 215) instead of returning a reply.  (`argsort` instantiates
the numpy call; the score array here has a single element, on which every
realization of the argsort contract returns `[0]`.) -/
theorem C2_unknown_character_keyerror :
    chat_with_character (fun _ => some []) (fun _ _ => 1) argsort
        (fun _ _ => Except.ok "hello") (fun _ => 0) stC2 "Alice" "hi"
      = Except.error (PyErr.keyError "Alice") := rfl

/-! ### History windowing (C8) -/

theorem dictAppend_getD :
    ∀ (h : List (String × List Turn)) (c : String) (t : Turn)
      (h2 : List (String × List Turn)), dictAppend h c t = some h2 →
      dictGetD h2 c = dictGetD h c ++ [t] := by
  intro h
  induction h with
  | nil => intro c t h2 hap; exact Option.noConfusion hap
  | cons kv rest ih =>
    intro c t h2 hap
    rcases kv with ⟨k, v⟩
    by_cases hk : k = c
    · rw [dictAppend, if_pos hk, Option.some.injEq] at hap
      subst hap
      simp only [dictGetD]
      rw [if_pos hk, if_pos hk]
    · rw [dictAppend, if_neg hk] at hap
      rcases hr : dictAppend rest c t with _ | r <;> rw [hr] at hap
      · exact Option.noConfusion hap
      · simp only [Option.map_some', Option.some.injEq] at hap
        subst hap
        simp only [dictGetD, if_neg hk]
        exact ih c t r hr

/-- C8: the history block of the prompt is built from exactly the last
`min(k, 5)` turns of the character's log, oldest-first — the windowed
selection `log[-5:]` is a suffix of the log (order preserved) of length
`min(k, 5)`, each turn rendered as `User: <msg>` newline `<character>:
<reply>` — while appending a turn (the only mutation the chat route performs)
retains all previous turns. -/
theorem C8_history_window (c : String) (log : List Turn)
    (h h2 : List (String × List Turn)) (t : Turn) (hap : dictAppend h c t = some h2) :
    (recentTurns log).length = min log.length 5
    ∧ log.take (log.length - 5) ++ recentTurns log = log
    ∧ historyStr c log = String.intercalate "\n"
        ((recentTurns log).map (fun m => "User: " ++ m.user ++ "\n" ++ c ++ ": " ++ m.ai))
    ∧ dictGetD h2 c = dictGetD h c ++ [t] := by
  refine ⟨?_, List.take_append_drop _ _, rfl, dictAppend_getD h c t h2 hap⟩
  simp only [recentTurns, List.length_drop]
  omega

/-- C8 witness: a log of 7 identical turns (the window keeps the last 5) and
a concrete append for the character `"A"`. -/
theorem C8_history_window_witness :
    dictAppend [("A", [])] "A" ⟨"m", "r"⟩ = some [("A", [⟨"m", "r"⟩])]
    ∧ ((recentTurns (List.replicate 7 ⟨"u", "a"⟩)).length
          = min (List.replicate 7 (⟨"u", "a"⟩ : Turn)).length 5
      ∧ (List.replicate 7 (⟨"u", "a"⟩ : Turn)).take
            ((List.replicate 7 (⟨"u", "a"⟩ : Turn)).length - 5)
          ++ recentTurns (List.replicate 7 ⟨"u", "a"⟩) = List.replicate 7 ⟨"u", "a"⟩
      ∧ historyStr "A" (List.replicate 7 ⟨"u", "a"⟩) = String.intercalate "\n"
          ((recentTurns (List.replicate 7 ⟨"u", "a"⟩)).map
            (fun m => "User: " ++ m.user ++ "\n" ++ "A" ++ ": " ++ m.ai))
      ∧ dictGetD [("A", [⟨"m", "r"⟩])] "A" = dictGetD [("A", [])] "A" ++ [⟨"m", "r"⟩]) :=
  ⟨rfl, C8_history_window "A" (List.replicate 7 ⟨"u", "a"⟩) [("A", [])]
      [("A", [⟨"m", "r"⟩])] ⟨"m", "r"⟩ rfl⟩

/-! ### String containment helpers -/

theorem strContains_intro (hay pat : String) (pre suf : List Char)
    (h : hay.data = pre ++ (pat.data ++ suf)) : strContains hay pat = true := by
  unfold strContains
  rw [List.any_eq_true]
  refine ⟨pre.length, ?_, ?_⟩
  · rw [List.mem_range, h]
    simp only [List.length_append]
    omega
  · rw [h, List.drop_left, List.take_left]
    exact beq_self_eq_true _

theorem strStarts_intro (hay pat : String) (suf : List Char)
    (h : hay.data = pat.data ++ suf) : strStarts hay pat = true := by
  unfold strStarts
  rw [h, List.take_left]
  exact beq_self_eq_true _

theorem strEnds_intro (hay pat : String) (pre : List Char)
    (h : hay.data = pre ++ pat.data) : strEnds hay pat = true := by
  unfold strEnds
  rw [h]
  have e : (pre ++ pat.data).length - pat.data.length = pre.length := by
    simp only [List.length_append]
    omega
  rw [e, List.drop_left]
  exact beq_self_eq_true _

/-! ### Generation retry/backoff (C4) -/

theorem retryLoop_attempts_le (g : Nat → Except String String) (j : Nat → ℚ) :
    ∀ (fuel a : Nat) (d : ℚ) (s : List ℚ), (retryLoop g j fuel a d s).2.1 ≤ a + fuel := by
  intro fuel
  induction fuel with
  | zero => intro a d s; simp [retryLoop]
  | succ n ih =>
    intro a d s
    cases hga : g a with
    | ok t => simp only [retryLoop, hga]; omega
    | error e =>
      by_cases hr : isRateLimitMsg e = true
      · simp only [retryLoop, hga, if_pos hr]
        calc (retryLoop g j n (a + 1) (2 * d + j a) (s ++ [d])).2.1 ≤ (a + 1) + n :=
              ih (a + 1) (2 * d + j a) (s ++ [d])
          _ ≤ a + (n + 1) := by omega
      · simp only [retryLoop, hga, if_neg hr]
        omega

theorem retryLoop_rate_step (g : Nat → Except String String) (j : Nat → ℚ)
    (fuel a : Nat) (d : ℚ) (s : List ℚ) (e : String)
    (hga : g a = Except.error e) (hr : isRateLimitMsg e = true) :
    retryLoop g j (fuel + 1) a d s
      = retryLoop g j fuel (a + 1) (2 * d + j a) (s ++ [d]) := by
  simp only [retryLoop, hga, if_pos hr]

theorem retryLoop_fail_stop (g : Nat → Except String String) (j : Nat → ℚ)
    (fuel a : Nat) (d : ℚ) (s : List ℚ) (e : String)
    (hga : g a = Except.error e) (hr : isRateLimitMsg e = false) :
    retryLoop g j (fuel + 1) a d s = (modelErrorReply e, a + 1, s) := by
  simp only [retryLoop, hga]
  rw [if_neg (by simp [hr])]

theorem rateLimit_shape (r : Except String String) (h : isRateLimitRes r = true) :
    ∃ e, r = Except.error e ∧ isRateLimitMsg e = true := by
  cases r with
  | ok t => simp [isRateLimitRes] at h
  | error e => exact ⟨e, rfl, by simpa [isRateLimitRes] using h⟩

/-- C4: the generation call with retry makes at most 3 attempts.  The backoff
delay sequence starts at 1 and after the `n`-th failed attempt becomes
`2 * delay + jitter n` with `jitter n ∈ [0, 1)`.  If every attempt is a
rate-limit failure, exactly 3 attempts are made, sleeping `delaySeq 0`,
`delaySeq 1`, `delaySeq 2` seconds, and the result is the fixed unavailable
reply.  If attempt `i` fails with a non-rate-limit error (all earlier ones
rate-limited), no further attempt is made: `i + 1` attempts in total, and the
reply embeds the error detail.  Both error replies start with the
warning-glyph marker `(⚠️`. -/
theorem C4_retry_backoff (gen : String → Nat → Except String String) (prompt : String)
    (jitter : Nat → ℚ) (_hj : ∀ n, 0 ≤ jitter n ∧ jitter n < 1) :
    (generate_with_retry gen prompt jitter).2.1 ≤ 3
    ∧ delaySeq jitter 0 = 1
    ∧ (∀ n, delaySeq jitter (n + 1) = 2 * delaySeq jitter n + jitter n)
    ∧ ((∀ n, isRateLimitRes (gen prompt n) = true) →
        generate_with_retry gen prompt jitter
          = (unavailableReply, 3, [delaySeq jitter 0, delaySeq jitter 1, delaySeq jitter 2]))
    ∧ (∀ i, i < 3 → (∀ m, m < i → isRateLimitRes (gen prompt m) = true) →
        ∀ e, gen prompt i = Except.error e → isRateLimitMsg e = false →
        generate_with_retry gen prompt jitter
          = (modelErrorReply e, i + 1, (List.range i).map (delaySeq jitter)))
    ∧ strStarts unavailableReply warnMark = true
    ∧ (∀ e, strStarts (modelErrorReply e) warnMark = true
        ∧ strContains (modelErrorReply e) e = true) := by
  refine ⟨?_, rfl, fun n => rfl, ?_, ?_, by decide, ?_⟩
  · simpa using retryLoop_attempts_le (gen prompt) jitter 3 0 1 []
  · intro hall
    obtain ⟨e0, hg0, hr0⟩ := rateLimit_shape _ (hall 0)
    obtain ⟨e1, hg1, hr1⟩ := rateLimit_shape _ (hall 1)
    obtain ⟨e2, hg2, hr2⟩ := rateLimit_shape _ (hall 2)
    have s1 : retryLoop (gen prompt) jitter 3 0 1 []
        = retryLoop (gen prompt) jitter 2 1 (2 * 1 + jitter 0) ([] ++ [1]) :=
      retryLoop_rate_step (gen prompt) jitter 2 0 1 [] e0 hg0 hr0
    have s2 : retryLoop (gen prompt) jitter 2 1 (2 * 1 + jitter 0) ([] ++ [1])
        = retryLoop (gen prompt) jitter 1 2 (2 * (2 * 1 + jitter 0) + jitter 1)
            (([] ++ [1]) ++ [2 * 1 + jitter 0]) :=
      retryLoop_rate_step (gen prompt) jitter 1 1 (2 * 1 + jitter 0) ([] ++ [1]) e1 hg1 hr1
    have s3 : retryLoop (gen prompt) jitter 1 2 (2 * (2 * 1 + jitter 0) + jitter 1)
          (([] ++ [1]) ++ [2 * 1 + jitter 0])
        = retryLoop (gen prompt) jitter 0 3 (2 * (2 * (2 * 1 + jitter 0) + jitter 1) + jitter 2)
            ((([] ++ [1]) ++ [2 * 1 + jitter 0]) ++ [2 * (2 * 1 + jitter 0) + jitter 1]) :=
      retryLoop_rate_step (gen prompt) jitter 0 2 (2 * (2 * 1 + jitter 0) + jitter 1)
        (([] ++ [1]) ++ [2 * 1 + jitter 0]) e2 hg2 hr2
    unfold generate_with_retry
    rw [s1, s2, s3]
    simp [retryLoop, delaySeq]
  · intro i hi hm e hge hnr
    interval_cases i
    · have s : retryLoop (gen prompt) jitter 3 0 1 [] = (modelErrorReply e, 0 + 1, []) :=
        retryLoop_fail_stop (gen prompt) jitter 2 0 1 [] e hge hnr
      unfold generate_with_retry
      rw [s]
      simp
    · obtain ⟨e0, hg0, hr0⟩ := rateLimit_shape _ (hm 0 (by omega))
      have s1 : retryLoop (gen prompt) jitter 3 0 1 []
          = retryLoop (gen prompt) jitter 2 1 (2 * 1 + jitter 0) ([] ++ [1]) :=
        retryLoop_rate_step (gen prompt) jitter 2 0 1 [] e0 hg0 hr0
      have s : retryLoop (gen prompt) jitter 2 1 (2 * 1 + jitter 0) ([] ++ [1])
          = (modelErrorReply e, 1 + 1, [] ++ [1]) :=
        retryLoop_fail_stop (gen prompt) jitter 1 1 (2 * 1 + jitter 0) ([] ++ [1]) e hge hnr
      unfold generate_with_retry
      rw [s1, s]
      simp [delaySeq, List.range_succ]
    · obtain ⟨e0, hg0, hr0⟩ := rateLimit_shape _ (hm 0 (by omega))
      obtain ⟨e1, hg1, hr1⟩ := rateLimit_shape _ (hm 1 (by omega))
      have s1 : retryLoop (gen prompt) jitter 3 0 1 []
          = retryLoop (gen prompt) jitter 2 1 (2 * 1 + jitter 0) ([] ++ [1]) :=
        retryLoop_rate_step (gen prompt) jitter 2 0 1 [] e0 hg0 hr0
      have s2 : retryLoop (gen prompt) jitter 2 1 (2 * 1 + jitter 0) ([] ++ [1])
          = retryLoop (gen prompt) jitter 1 2 (2 * (2 * 1 + jitter 0) + jitter 1)
              (([] ++ [1]) ++ [2 * 1 + jitter 0]) :=
        retryLoop_rate_step (gen prompt) jitter 1 1 (2 * 1 + jitter 0) ([] ++ [1]) e1 hg1 hr1
      have s : retryLoop (gen prompt) jitter 1 2 (2 * (2 * 1 + jitter 0) + jitter 1)
            (([] ++ [1]) ++ [2 * 1 + jitter 0])
          = (modelErrorReply e, 2 + 1, ([] ++ [1]) ++ [2 * 1 + jitter 0]) :=
        retryLoop_fail_stop (gen prompt) jitter 0 2 (2 * (2 * 1 + jitter 0) + jitter 1)
          (([] ++ [1]) ++ [2 * 1 + jitter 0]) e hge hnr
      unfold generate_with_retry
      rw [s1, s2, s]
      simp [delaySeq, List.range_succ]
  · intro e
    constructor
    · exact strStarts_intro (modelErrorReply e) warnMark
        ((" Error talking to model: " ++ e ++ ")").data)
        (by simp [modelErrorReply, List.append_assoc])
    · exact strContains_intro (modelErrorReply e) e
        ((warnMark ++ " Error talking to model: ").data) (")".data)
        (by simp [modelErrorReply, List.append_assoc])

/-- C4 witness: a generation stub that always raises a rate-limit error makes
exactly 3 attempts and yields the fixed unavailable reply, with zero jitter
giving the delay sequence 1, 2, 4. -/
theorem C4_retry_backoff_witness :
    ((0 : ℚ) ≤ 0 ∧ (0 : ℚ) < 1)
    ∧ generate_with_retry (fun _ _ => Except.error "429 quota") "p" (fun _ => 0)
        = (unavailableReply, 3,
           [delaySeq (fun _ => 0) 0, delaySeq (fun _ => 0) 1, delaySeq (fun _ => 0) 2])
    ∧ [delaySeq (fun _ => (0 : ℚ)) 0, delaySeq (fun _ => 0) 1, delaySeq (fun _ => 0) 2]
        = [1, 2, 4] := by
  refine ⟨by norm_num, ?_, by simp [delaySeq]; norm_num⟩
  exact (C4_retry_backoff (fun _ _ => Except.error "429 quota") "p" (fun _ => 0)
    (fun n => by norm_num)).2.2.2.1 (fun n => by decide)

/-! ### Prompt assembly (C7) -/

/-- C7 (amended): the assembled prompt contains the role-establishing
instruction naming the character, the formatted history block, the retrieved
chunks rendered in Python list-repr form — each chunk passed through `repr`
(single quotes, switching to double quotes when the chunk contains a single
quote and no double quote, with backslash-escaping of backslashes, the quote
character, newlines, carriage returns and tabs), comma-separated, in square
brackets — not their plain concatenation — and the quoted new user message;
and it ends with the character's name followed by a colon and a newline.
The assembly is a pure function of these inputs (a mathematical function of
exactly these four arguments).  The chunk texts are restricted to characters
on which the embedded `repr` agrees exactly with CPython (printable ASCII,
newline, carriage return, tab — `pyPlain`); CPython renders other
non-printable characters with `\x`/`\u` escapes not modelled here. -/
theorem C7_prompt_assembly (c hist : String) (ctx : List String) (msg : String)
    (_hplain : ∀ ch ∈ ctx, ∀ a ∈ ch.data, pyPlain a = true) :
    strContains (buildPrompt c hist ctx msg)
        ("You are roleplaying as **" ++ c ++ "** from the uploaded book.") = true
    ∧ strContains (buildPrompt c hist ctx msg) hist = true
    ∧ strContains (buildPrompt c hist ctx msg) (pyListRepr ctx) = true
    ∧ strContains (buildPrompt c hist ctx msg) ("User: \"" ++ msg ++ "\"") = true
    ∧ strEnds (buildPrompt c hist ctx msg) (c ++ ":" ++ "\n") = true := by
  refine ⟨?_, ?_, ?_, ?_, ?_⟩
  · exact strContains_intro _ _ ("\n".data)
      (("\n\nStay in character. Speak in a natural conversational style.\nIf the book does not provide enough info, politely say so.\n\nConversation history:\n" ++
        hist ++ "\n\nRelevant book context:\n" ++ pyListRepr ctx ++
        "\n\n---\n" ++ "User: \"" ++ msg ++ "\"" ++ "\n" ++ c ++ ":" ++ "\n").data)
      (by simp [buildPrompt, List.append_assoc])
  · exact strContains_intro _ _
      (("\n" ++ "You are roleplaying as **" ++ c ++ "** from the uploaded book." ++
        "\n\nStay in character. Speak in a natural conversational style.\nIf the book does not provide enough info, politely say so.\n\nConversation history:\n").data)
      (("\n\nRelevant book context:\n" ++ pyListRepr ctx ++
        "\n\n---\n" ++ "User: \"" ++ msg ++ "\"" ++ "\n" ++ c ++ ":" ++ "\n").data)
      (by simp [buildPrompt, List.append_assoc])
  · exact strContains_intro _ _
      (("\n" ++ "You are roleplaying as **" ++ c ++ "** from the uploaded book." ++
        "\n\nStay in character. Speak in a natural conversational style.\nIf the book does not provide enough info, politely say so.\n\nConversation history:\n" ++
        hist ++ "\n\nRelevant book context:\n").data)
      (("\n\n---\n" ++ "User: \"" ++ msg ++ "\"" ++ "\n" ++ c ++ ":" ++ "\n").data)
      (by simp [buildPrompt, List.append_assoc])
  · exact strContains_intro _ _
      (("\n" ++ "You are roleplaying as **" ++ c ++ "** from the uploaded book." ++
        "\n\nStay in character. Speak in a natural conversational style.\nIf the book does not provide enough info, politely say so.\n\nConversation history:\n" ++
        hist ++ "\n\nRelevant book context:\n" ++ pyListRepr ctx ++ "\n\n---\n").data)
      (("\n" ++ c ++ ":" ++ "\n").data)
      (by simp [buildPrompt, List.append_assoc])
  · exact strEnds_intro _ _
      (("\n" ++ "You are roleplaying as **" ++ c ++ "** from the uploaded book." ++
        "\n\nStay in character. Speak in a natural conversational style.\nIf the book does not provide enough info, politely say so.\n\nConversation history:\n" ++
        hist ++ "\n\nRelevant book context:\n" ++ pyListRepr ctx ++
        "\n\n---\n" ++ "User: \"" ++ msg ++ "\"" ++ "\n").data)
      (by simp [buildPrompt, List.append_assoc])

/-- C7 witness: the amended theorem evaluated at the character `"Zed"`, a
history block `"h"`, the plain-ASCII chunks `["ab", "cd"]` and the message
`"hi"`. -/
theorem C7_prompt_assembly_witness :
    (∀ ch ∈ (["ab", "cd"] : List String), ∀ a ∈ ch.data, pyPlain a = true)
    ∧ (strContains (buildPrompt "Zed" "h" ["ab", "cd"] "hi")
          ("You are roleplaying as **" ++ "Zed" ++ "** from the uploaded book.") = true
      ∧ strContains (buildPrompt "Zed" "h" ["ab", "cd"] "hi") "h" = true
      ∧ strContains (buildPrompt "Zed" "h" ["ab", "cd"] "hi") (pyListRepr ["ab", "cd"]) = true
      ∧ strContains (buildPrompt "Zed" "h" ["ab", "cd"] "hi")
          ("User: \"" ++ "hi" ++ "\"") = true
      ∧ strEnds (buildPrompt "Zed" "h" ["ab", "cd"] "hi") ("Zed" ++ ":" ++ "\n") = true) :=
  ⟨by decide, C7_prompt_assembly "Zed" "h" ["ab", "cd"] "hi" (by decide)⟩

/-- C7 counterexample: for the retrieved chunks `["ab", "cd"]` the prompt
contains their Python list repr (with quotes, comma and brackets) but neither
their plain concatenation `"abcd"` nor the comma-join `"ab, cd"`, refuting
the claim that the prompt contains the concatenated retrieved chunks joined
as text. -/
theorem C7_cex :
    strContains (buildPrompt "Zed" "" ["ab", "cd"] "hi") (pyListRepr ["ab", "cd"]) = true
    ∧ strContains (buildPrompt "Zed" "" ["ab", "cd"] "hi") "abcd" = false
    ∧ strContains (buildPrompt "Zed" "" ["ab", "cd"] "hi") "ab, cd" = false := by
  refine ⟨?_, ?_, ?_⟩ <;> decide
/-! ### Semantic search ranking (C3) -/

instance (sims : List ℚ) : IsTotal Nat (simOrd sims) := by
  constructor
  intro i j
  rcases lt_trichotomy (simKey sims i) (simKey sims j) with h | h | h
  · exact Or.inl (Or.inl h)
  · rcases Nat.le_total i j with hij | hij
    · exact Or.inl (Or.inr ⟨h, hij⟩)
    · exact Or.inr (Or.inr ⟨h.symm, hij⟩)
  · exact Or.inr (Or.inl h)

instance (sims : List ℚ) : IsTrans Nat (simOrd sims) := by
  constructor
  intro a b c hab hbc
  rcases hab with h1 | ⟨e1, l1⟩
  · rcases hbc with h2 | ⟨e2, l2⟩
    · exact Or.inl (h1.trans h2)
    · exact Or.inl (by rw [← e2]; exact h1)
  · rcases hbc with h2 | ⟨e2, l2⟩
    · exact Or.inl (by rw [e1]; exact h2)
    · exact Or.inr ⟨e1.trans e2, l1.trans l2⟩

theorem argsort_perm (sims : List ℚ) : (argsort sims).Perm (List.range sims.length) :=
  List.perm_insertionSort (simOrd sims) (List.range sims.length)

theorem argsort_sorted (sims : List ℚ) : List.Sorted (simOrd sims) (argsort sims) :=
  List.sorted_insertionSort (simOrd sims) (List.range sims.length)

/-- The insertion-sort realization satisfies numpy's argsort contract (it is
an ascending permutation of the indices). -/
theorem argsort_spec (sims : List ℚ) : isArgsortOf sims (argsort sims) := by
  refine ⟨argsort_perm sims, ?_⟩
  refine List.Pairwise.imp ?_ (argsort_sorted sims)
  intro i j hij
  rcases hij with h | ⟨h, _⟩
  · exact le_of_lt h
  · exact le_of_eq h

theorem pyTail_reverse_take {α : Type} (l : List α) (k : Nat) (hk : 0 < k) :
    (pyTail l k).reverse = l.reverse.take k := by
  unfold pyTail
  rw [if_neg (by omega)]
  have h1 : l.drop (l.length - k) = List.rtake l k := rfl
  rw [h1, List.rtake_eq_reverse_take_reverse, List.reverse_reverse]

theorem indexList_valid (chunks : List String) :
    ∀ (ids : List Nat), (∀ i ∈ ids, i < chunks.length) →
      indexList chunks ids = some (ids.map (fun i => chunks.getD i "")) := by
  intro ids
  induction ids with
  | nil => intro _; rfl
  | cons i rest ih =>
    intro hv
    have hi : i < chunks.length := hv i (List.mem_cons_self i rest)
    have hrec := ih (fun x hx => hv x (List.mem_cons_of_mem i hx))
    simp only [indexList, List.get?_eq_getElem?, List.getElem?_eq_getElem hi, hrec,
      Option.map_some', List.map_cons, Option.some.injEq, List.cons.injEq]
    exact ⟨(List.getD_eq_getElem chunks "" hi).symm, trivial⟩

/-- C3 (amended): on a non-empty index with parallel chunk/embedding arrays
and `top_k ≥ 1`, for every realization of numpy's argsort contract (an
ascending permutation of the indices — the contract is all numpy guarantees,
its default quicksort kind being unstable), `semantic_search` returns the
chunks indexed by the first `top_k` entries of the reversed argsort: a
prefix of a permutation of all stored indices, ordered by non-strictly
descending similarity, of length `min top_k n` (all chunks when `top_k`
exceeds the count).  The relative order of tied chunks is whatever the
unstable argsort produced, reversed — in particular it is NOT earlier-index
first (see the counterexample, where the small-array stable sort applies and
the later chunk comes first). -/
theorem C3_search_ranking (embedder : String → Option Vec) (simFn : Vec → Vec → ℚ)
    (npArgsort : List ℚ → List Nat) (st : SessionState) (q : String) (qv : Vec) (k : Nat)
    (hq : embedder q = some qv) (hne : st.BOOK_EMBEDDINGS ≠ [])
    (hlen : st.BOOK_CHUNKS.length = st.BOOK_EMBEDDINGS.length) (hk : 0 < k)
    (hsort : isArgsortOf (st.BOOK_EMBEDDINGS.map (simFn qv))
        (npArgsort (st.BOOK_EMBEDDINGS.map (simFn qv)))) :
    semantic_search embedder simFn npArgsort st q k
        = Except.ok ((topIds (npArgsort (st.BOOK_EMBEDDINGS.map (simFn qv))) k).map
            (fun i => st.BOOK_CHUNKS.getD i ""), 1)
    ∧ topIds (npArgsort (st.BOOK_EMBEDDINGS.map (simFn qv))) k
        = ((npArgsort (st.BOOK_EMBEDDINGS.map (simFn qv))).reverse).take k
    ∧ ((npArgsort (st.BOOK_EMBEDDINGS.map (simFn qv))).reverse).Perm
        (List.range st.BOOK_EMBEDDINGS.length)
    ∧ List.Pairwise
        (fun i j => simKey (st.BOOK_EMBEDDINGS.map (simFn qv)) j
            ≤ simKey (st.BOOK_EMBEDDINGS.map (simFn qv)) i)
        ((npArgsort (st.BOOK_EMBEDDINGS.map (simFn qv))).reverse)
    ∧ (topIds (npArgsort (st.BOOK_EMBEDDINGS.map (simFn qv))) k).length
        = min k st.BOOK_EMBEDDINGS.length := by
  have hplen : (st.BOOK_EMBEDDINGS.map (simFn qv)).length = st.BOOK_EMBEDDINGS.length :=
    List.length_map _ _
  have hlen2 : (npArgsort (st.BOOK_EMBEDDINGS.map (simFn qv))).length
      = st.BOOK_EMBEDDINGS.length := by
    rw [hsort.1.length_eq, List.length_range, hplen]
  have h2 : topIds (npArgsort (st.BOOK_EMBEDDINGS.map (simFn qv))) k
      = ((npArgsort (st.BOOK_EMBEDDINGS.map (simFn qv))).reverse).take k := by
    unfold topIds
    exact pyTail_reverse_take _ k hk
  have h3 : ((npArgsort (st.BOOK_EMBEDDINGS.map (simFn qv))).reverse).Perm
      (List.range st.BOOK_EMBEDDINGS.length) := by
    have ha : ((npArgsort (st.BOOK_EMBEDDINGS.map (simFn qv))).reverse).Perm
        (npArgsort (st.BOOK_EMBEDDINGS.map (simFn qv))) := List.reverse_perm _
    have hb := ha.trans hsort.1
    rw [hplen] at hb
    exact hb
  have h4 : List.Pairwise
      (fun i j => simKey (st.BOOK_EMBEDDINGS.map (simFn qv)) j
          ≤ simKey (st.BOOK_EMBEDDINGS.map (simFn qv)) i)
      ((npArgsort (st.BOOK_EMBEDDINGS.map (simFn qv))).reverse) := by
    rw [List.pairwise_reverse]
    exact hsort.2
  have h5 : (topIds (npArgsort (st.BOOK_EMBEDDINGS.map (simFn qv))) k).length
      = min k st.BOOK_EMBEDDINGS.length := by
    rw [h2, List.length_take, List.length_reverse, hlen2]
  have hvalid : ∀ i ∈ topIds (npArgsort (st.BOOK_EMBEDDINGS.map (simFn qv))) k,
      i < st.BOOK_CHUNKS.length := by
    intro i hi
    rw [h2] at hi
    have hm1 : i ∈ (npArgsort (st.BOOK_EMBEDDINGS.map (simFn qv))).reverse :=
      List.mem_of_mem_take hi
    have hm2 : i ∈ npArgsort (st.BOOK_EMBEDDINGS.map (simFn qv)) := List.mem_reverse.mp hm1
    have hm3 : i ∈ List.range (st.BOOK_EMBEDDINGS.map (simFn qv)).length :=
      hsort.1.mem_iff.mp hm2
    rw [List.mem_range, hplen] at hm3
    omega
  have hidx := indexList_valid st.BOOK_CHUNKS _ hvalid
  refine ⟨?_, h2, h3, h4, h5⟩
  simp only [semantic_search, if_neg hne, hq, hidx]

/-- A session with three chunks whose similarity scores to the query are
1, 3, 2 — distinct, to exercise the ranking. -/
def stC3w : SessionState := ⟨"t", ["a", "b", "c"], [[1], [3], [2]], []⟩

/-- C3 witness: on the session `stC3w` with scores 1, 3, 2 and `top_k = 2`,
instantiating the argsort parameter with the concrete contract-satisfying
realization `argsort`, the search returns the two highest-scoring chunks in
descending order. -/
theorem C3_search_ranking_witness :
    isArgsortOf [(1 : ℚ), 3, 2] (argsort [(1 : ℚ), 3, 2])
    ∧ 0 < 2
    ∧ semantic_search (fun _ => some [(9 : ℚ)]) (fun _ v => v.getD 0 0) argsort stC3w "q" 2
        = Except.ok (["b", "c"], 1) := by
  refine ⟨argsort_spec _, by decide, ?_⟩
  have h := (C3_search_ranking (fun _ => some [(9 : ℚ)]) (fun _ v => v.getD 0 0) argsort
      stC3w "q" [(9 : ℚ)] 2 rfl (by decide) rfl (by decide) (argsort_spec _)).1
  rw [h]
  rfl

/-- A session with two chunks whose similarity scores to the query tie. -/
def stC3cex : SessionState := ⟨"t", ["a", "b"], [[1], [1]], []⟩

/-- C3 counterexample: two stored chunks with equal similarity scores and
`top_k = 3` exceeding the chunk count.  The score array has two elements, so
numpy's introsort runs its small-array insertion sort and returns the stable
ascending `[0, 1]` — exactly what the realization `argsort` computes — and
the route then returns `["b", "a"]`, the later chunk first, not `["a", "b"]`
as descending order with ties broken by earlier original chunk index would
require. -/
theorem C3_cex :
    semantic_search (fun _ => some []) (fun _ _ => (1 : ℚ)) argsort stC3cex "q" 3
        = Except.ok (["b", "a"], 1)
    ∧ (["b", "a"] : List String) ≠ ["a", "b"] :=
  ⟨rfl, by decide⟩
